import Mathlib

/-!
# Node pool operations of the OCI container engine provider

A shallow embedding of `pkg/providers/oracle/oci/ce_nodepool.go`.

* Go pointers (`*string`, `*int`) are `Option` values; dereferencing `nil`
  is the outcome `Outcome.nilDeref`.
* The SDK's string enums (`NodeLifecycleStateEnum`, `WorkRequestStatusEnum`,
  `WorkRequestResourceActionTypeEnum`) are `String`s, as in the SDK.
* The remote service is a parameter. `GetNodePools`, which fetches in a
  loop, threads an explicit service state and is bounded by fuel (the
  number of fetches it may still make); a run that is still looping when
  the fuel is gone has `result = none`.
* Log calls have no effect on the results; only the evaluation of their
  arguments (which dereferences pointers) is kept.
-/

namespace oci

/-! ## Data model -/

/-- Go `error` values that this file produces or passes through. -/
inductive GoError where
  /-- an error returned by an SDK client call or by the work-request wait -/
  | remote (msg : String)
  /-- the value of `fmt.Errorf`, with the formatted message -/
  | errorf (msg : String)
  /-- the repository's `EntityNotFoundError{Type, Id}` -/
  | entityNotFound (typ : String) (id : String)
  deriving DecidableEq, Repr

/-- How a Go function call ends here: it returns a value, or it dies on a
nil pointer dereference. -/
inductive Outcome (α : Type) where
  | ret (a : α)
  | nilDeref
  deriving DecidableEq, Repr

/-- The receiver; only `CompartmentOCID` is read by the node pool code. -/
structure ContainerEngine where
  CompartmentOCID : String
  deriving DecidableEq, Repr

/-- Fields of `containerengine.NodePoolSummary`. -/
structure NodePoolSummary where
  Id : Option String := none
  CompartmentId : Option String := none
  ClusterId : Option String := none
  Name : Option String := none
  deriving DecidableEq, Repr

/-- Fields of `containerengine.ListNodePoolsRequest`; an untouched field
keeps its zero value. -/
structure ListNodePoolsRequest where
  CompartmentId : Option String := none
  ClusterId : Option String := none
  Name : Option String := none
  Limit : Option Int := none
  Page : Option String := none
  SortOrder : String := ""
  SortBy : String := ""
  OpcRequestId : Option String := none
  deriving DecidableEq, Repr

/-- Fields of `containerengine.ListNodePoolsResponse`. -/
structure ListNodePoolsResponse where
  Items : List NodePoolSummary := []
  OpcNextPage : Option String := none
  OpcRequestId : Option String := none
  deriving DecidableEq, Repr

/-- The reply of the service to one `ListNodePools` call. -/
abbrev ListReply := Except GoError ListNodePoolsResponse

/-- The paged list operation of the service: from its current state and a
request, a reply and the next state. -/
abbrev ListFunc (σ : Type) := σ → ListNodePoolsRequest → ListReply × σ

/-! ## GetNodePools -/

/-- The inner loop `for _, item := range r.Items { nodepools = append(nodepools, item) }`. -/
def appendItems (nodepools : List NodePoolSummary) (items : List NodePoolSummary) :
    List NodePoolSummary :=
  items.foldl (fun acc item => acc ++ [item]) nodepools

/-- A run of `GetNodePools`: what it returned (`none` while it is still
looping), the fetches it made in order, each with its reply, and the state
the service is left in. -/
structure ListRun (σ : Type) where
  result : Option (List NodePoolSummary × Option GoError)
  calls : List (ListNodePoolsRequest × ListReply)
  state : σ

/-- The loop `for r, err := listFunc(request); ; r, err = listFunc(request)`,
with at most `fuel` fetches. The `err` returned after the `break` is the
named result, which nothing assigns: it is `nil`. -/
def GetNodePools.loop {σ : Type} (listFunc : ListFunc σ) :
    Nat → σ → ListNodePoolsRequest → List NodePoolSummary → ListRun σ
  | 0, s, _, _ => { result := none, calls := [], state := s }
  | fuel + 1, s, request, nodepools =>
    match listFunc s request with
    | (.error err, s1) =>
      { result := some (nodepools, some err), calls := [(request, .error err)], state := s1 }
    | (.ok r, s1) =>
      let nodepools := appendItems nodepools r.Items
      if r.OpcNextPage ≠ none then
        let rest := GetNodePools.loop listFunc fuel s1 { request with Page := r.OpcNextPage } nodepools
        { rest with calls := (request, .ok r) :: rest.calls }
      else
        { result := some (nodepools, none), calls := [(request, .ok r)], state := s1 }

/-- The request `GetNodePools` starts from. -/
def GetNodePools.request (ce : ContainerEngine) (clusterID : Option String) :
    ListNodePoolsRequest :=
  let request : ListNodePoolsRequest :=
    { CompartmentId := some ce.CompartmentOCID, ClusterId := clusterID }
  { request with Limit := some 20 }

/-- GetNodePools gets all node pools within a cluster. -/
def GetNodePools {σ : Type} (ce : ContainerEngine) (listFunc : ListFunc σ) (s : σ)
    (clusterID : Option String) (fuel : Nat) : ListRun σ :=
  GetNodePools.loop listFunc fuel s (GetNodePools.request ce clusterID) []

/-- A list source that plays back fixed replies in order, whatever the
request; once they are used up every fetch fails. -/
def scripted : ListFunc (List ListReply)
  | [], _ => (.error (.remote "no more replies"), [])
  | reply :: rest, _ => (reply, rest)

/-- A list source that answers every fetch with an empty page and the
next-page cursor `"X"`. -/
def cursorXForever : ListFunc Unit :=
  fun _ _ => (.ok { Items := [], OpcNextPage := some "X" }, ())

/-! ## GetNodePool and IsNodePoolActive -/

/-- Fields of `containerengine.Node`. -/
structure Node where
  Id : Option String := none
  Name : Option String := none
  LifecycleState : String := ""
  LifecycleDetails : Option String := none
  deriving DecidableEq, Repr

/-- Fields of `containerengine.NodePool`. `QuantityPerSubnet` is a Go `*int`:
a present value lies in the 64-bit range. -/
structure NodePool where
  Id : Option String := none
  Name : Option String := none
  QuantityPerSubnet : Option Int := none
  SubnetIds : List String := []
  Nodes : List Node := []
  deriving DecidableEq, Repr

/-- Fields of `containerengine.GetNodePoolRequest`. -/
structure GetNodePoolRequest where
  NodePoolId : Option String := none
  deriving DecidableEq, Repr

/-- Fields of `containerengine.GetNodePoolResponse`. -/
structure GetNodePoolResponse where
  NodePool : NodePool := {}
  deriving DecidableEq, Repr

/-- The SDK constant `NodeLifecycleStateDeleted`. -/
def NodeLifecycleStateDeleted : String := "DELETED"

/-- The SDK constant `NodeLifecycleStateActive`. -/
def NodeLifecycleStateActive : String := "ACTIVE"

/-- The value of a Go `int` expression: the mathematical value reduced to
the signed 64-bit range. -/
def wrapInt (x : Int) : Int :=
  (x + 2 ^ 63) % 2 ^ 64 - 2 ^ 63

/-- GetNodePool gets a node pool by id: the pool and a `nil` error, or
the zero pool and the error of the query. -/
def GetNodePool (getNodePool : GetNodePoolRequest → Except GoError GetNodePoolResponse)
    (id : Option String) : NodePool × Option GoError :=
  match getNodePool { NodePoolId := id } with
  | .error err => ({}, some err)
  | .ok response => (response.NodePool, none)

/-- The loop of `IsNodePoolActive` over `np.Nodes`, from the current value
of `activeNodes`: a DELETED node is skipped, an ACTIVE node is counted, and
at any other node the debug line dereferences `n.LifecycleDetails` and the
loop breaks. (`activeNodes++` cannot overflow: a slice holds fewer than
`2 ^ 63` nodes.) -/
def IsNodePoolActive.scan : List Node → Int → Outcome Int
  | [], activeNodes => .ret activeNodes
  | n :: rest, activeNodes =>
    if n.LifecycleState = NodeLifecycleStateDeleted then
      IsNodePoolActive.scan rest activeNodes
    else if n.LifecycleState = NodeLifecycleStateActive then
      IsNodePoolActive.scan rest (activeNodes + 1)
    else
      match n.LifecycleDetails with
      | none => .nilDeref
      | some _ => .ret activeNodes

/-- The body of `IsNodePoolActive` after a successful `GetNodePool`
(lines 181 to 201). -/
def IsNodePoolActive.check (np : NodePool) : Outcome Bool :=
  match np.QuantityPerSubnet with
  | none => .nilDeref
  | some quantity =>
    let neededCount := wrapInt ((np.SubnetIds.length : Int) * quantity)
    match IsNodePoolActive.scan np.Nodes 0 with
    | .nilDeref => .nilDeref
    | .ret activeNodes =>
      if activeNodes = neededCount then
        match np.Name with
        | none => .nilDeref
        | some _ => .ret true
      else
        .ret false

/-- IsNodePoolActive checks whether every node is in ACTIVE not DELETED
state in a node pool. -/
def IsNodePoolActive (getNodePool : GetNodePoolRequest → Except GoError GetNodePoolResponse)
    (id : Option String) : Outcome Bool :=
  match GetNodePool getNodePool id with
  | (_, some _) => .ret false
  | (np, none) => IsNodePoolActive.check np

/-! ## Work requests -/

/-- An element of `workReqResp.Resources`: the resource action record of a
completed work request (section 3 of the spec: action type, entity type,
resource id). -/
structure WorkRequestResource where
  ActionType : String := ""
  EntityType : String := ""
  Identifier : String := ""
  deriving DecidableEq, Repr

/-- Fields of `containerengine.WorkRequest`. -/
structure WorkRequest where
  Id : Option String := none
  Status : String := ""
  Resources : List WorkRequestResource := []
  deriving DecidableEq, Repr

/-- Fields of `containerengine.GetWorkRequestResponse`, which embeds the
work request. -/
structure GetWorkRequestResponse where
  WorkRequest : WorkRequest := {}
  deriving DecidableEq, Repr

/-- The promoted field `workReqResp.Resources` of the embedded work request. -/
def GetWorkRequestResponse.Resources (workReqResp : GetWorkRequestResponse) :
    List WorkRequestResource :=
  workReqResp.WorkRequest.Resources

/-- The SDK constant `WorkRequestStatusSucceeded`. -/
def WorkRequestStatusSucceeded : String := "SUCCEEDED"

/-- The SDK constant `WorkRequestResourceActionTypeCreated`. -/
def WorkRequestResourceActionTypeCreated : String := "CREATED"

/-- Modelled from the spec: `getResourceID` is not part of
`ce_nodepool.go`. Section 4.2 (Resource Correlator): scan the resource
actions in their given order and return the resource id of the first one
that matches both the action type and the entity type, and an absent
result (a `nil` pointer for the caller) when none matches. -/
def getResourceID (resources : List WorkRequestResource) (actionType : String)
    (entityType : String) : Option String :=
  match resources with
  | [] => none
  | resource :: rest =>
    if resource.ActionType = actionType ∧ resource.EntityType = entityType then
      some resource.Identifier
    else
      getResourceID rest actionType entityType

/-- The outcome of `waitUntilWorkRequestComplete` for a work request id.
The function is not part of `ce_nodepool.go`; its outcome (the completed
work request, or the error of the wait) is a parameter of the operations
that call it. -/
abbrev WaitFunc := Option String → Except GoError GetWorkRequestResponse

/-- The message built by `fmt.Errorf("WorkReqResp status: %s", status)`. -/
def statusError (status : String) : GoError :=
  .errorf ("WorkReqResp status: " ++ status)

/-! ## CreateNodePool -/

/-- Fields of `containerengine.CreateNodePoolRequest` (the details are
passed through to the service unread). -/
structure CreateNodePoolRequest where
  Name : Option String := none
  ClusterId : Option String := none
  CompartmentId : Option String := none
  OpcRequestId : Option String := none
  deriving DecidableEq, Repr

/-- Fields of `containerengine.CreateNodePoolResponse`. -/
structure CreateNodePoolResponse where
  OpcWorkRequestId : Option String := none
  OpcRequestId : Option String := none
  deriving DecidableEq, Repr

/-- CreateNodePool creates the node pool specified in the request. The
named result `nodepoolOCID` is the empty string until it is assigned. -/
def CreateNodePool (createNodePool : CreateNodePoolRequest → Except GoError CreateNodePoolResponse)
    (waitUntilWorkRequestComplete : WaitFunc) (request : CreateNodePoolRequest) :
    Outcome (String × Option GoError) :=
  match createNodePool request with
  | .error err => .ret ("", some err)
  | .ok response =>
    match waitUntilWorkRequestComplete response.OpcWorkRequestId with
    | .error err => .ret ("", some err)
    | .ok workReqResp =>
      if workReqResp.WorkRequest.Status ≠ WorkRequestStatusSucceeded then
        .ret ("", some (statusError workReqResp.WorkRequest.Status))
      else
        match getResourceID workReqResp.Resources WorkRequestResourceActionTypeCreated "NODEPOOL" with
        | none => .nilDeref
        | some nodepoolOCID => .ret (nodepoolOCID, none)

/-! ## DeleteNodePool and DeleteNodePoolByName -/

/-- Fields of `containerengine.DeleteNodePoolRequest`. -/
structure DeleteNodePoolRequest where
  NodePoolId : Option String := none
  deriving DecidableEq, Repr

/-- Fields of `containerengine.DeleteNodePoolResponse`. -/
structure DeleteNodePoolResponse where
  OpcWorkRequestId : Option String := none
  OpcRequestId : Option String := none
  deriving DecidableEq, Repr

/-- The service operations that the delete path calls. -/
structure DeleteClient where
  ListNodePools : ListNodePoolsRequest → ListReply
  DeleteNodePool : DeleteNodePoolRequest → Except GoError DeleteNodePoolResponse
  waitUntilWorkRequestComplete : WaitFunc

/-- DeleteNodePool deletes a node pool by id; `none` is the `nil` error. -/
def DeleteNodePool (client : DeleteClient) (id : Option String) : Option GoError :=
  match client.DeleteNodePool { NodePoolId := id } with
  | .error err => some err
  | .ok response =>
    match client.waitUntilWorkRequestComplete response.OpcWorkRequestId with
    | .error err => some err
    | .ok workReqResp =>
      if workReqResp.WorkRequest.Status ≠ WorkRequestStatusSucceeded then
        some (statusError workReqResp.WorkRequest.Status)
      else
        none

/-- GetNodePoolByName gets a node pool by name within a cluster: the
first item of the reply, or the zero summary and an error. -/
def GetNodePoolByName (ce : ContainerEngine) (client : DeleteClient)
    (clusterID : Option String) (name : String) : NodePoolSummary × Option GoError :=
  let request : ListNodePoolsRequest :=
    { CompartmentId := some ce.CompartmentOCID, ClusterId := clusterID, Name := some name }
  match client.ListNodePools request with
  | .error err => ({}, some err)
  | .ok response =>
    match response.Items with
    | [] => ({}, some (.entityNotFound "Node Pool" name))
    | item :: _ => (item, none)

/-- DeleteNodePoolByName deletes a node pool in a cluster by name. The
value of the call `ce.DeleteNodePool(nodePool.Id)` is not used. -/
def DeleteNodePoolByName (ce : ContainerEngine) (client : DeleteClient)
    (clusterID : Option String) (name : String) : Outcome (Option GoError) :=
  match GetNodePoolByName ce client clusterID name with
  | (_, some err) => .ret (some err)
  | (nodePool, none) =>
    if nodePool.Id = none then
      .ret none
    else
      match nodePool.Name with
      | none => .nilDeref
      | some _ =>
        let _ := DeleteNodePool client nodePool.Id
        .ret none

/-! ## The readiness rule in the words of the spec -/

/-- The readiness count in the words of the spec (section 4.4): iterate the
states in order, skip a removed state (DELETED), count a ready state
(ACTIVE), and stop at the first state that is neither. -/
def readyCount : List String → Nat
  | [] => 0
  | state :: rest =>
    if state = "DELETED" then readyCount rest
    else if state = "ACTIVE" then readyCount rest + 1
    else 0

/-- The readiness verdict in the words of the spec (section 4.4): true iff
the count of ready states equals `expectedCount` exactly. -/
def isReady (expectedCount : Int) (states : List String) : Bool :=
  decide ((readyCount states : Int) = expectedCount)

/-! ## Concrete inputs -/

/-- A container engine bound to a compartment. -/
def sampleEngine : ContainerEngine := { CompartmentOCID := "ocid1.compartment.oc1..aaaa" }

/-- Node pool summary `a`. -/
def poolA : NodePoolSummary := { Id := some "ocid1.nodepool.a", Name := some "a" }

/-- Node pool summary `b`. -/
def poolB : NodePoolSummary := { Id := some "ocid1.nodepool.b", Name := some "b" }

/-- Node pool summary `c`. -/
def poolC : NodePoolSummary := { Id := some "ocid1.nodepool.c", Name := some "c" }

/-- The page `[a, b]`, with a next-page cursor. -/
def pageAB : ListNodePoolsResponse := { Items := [poolA, poolB], OpcNextPage := some "page-2" }

/-- The page `[c]`, with a next-page cursor. -/
def pageC : ListNodePoolsResponse := { Items := [poolC], OpcNextPage := some "page-3" }

/-- The empty page without a next-page cursor. -/
def pageEmpty : ListNodePoolsResponse := { Items := [], OpcNextPage := none }

/-- A node in ACTIVE state. -/
def activeNode : Node := { LifecycleState := "ACTIVE" }

/-- A node in UPDATING state, with lifecycle details. -/
def updatingNode : Node := { LifecycleState := "UPDATING", LifecycleDetails := some "updating" }

/-- A node in UPDATING state whose lifecycle details are absent. -/
def updatingNodeNoDetails : Node := { LifecycleState := "UPDATING", LifecycleDetails := none }

/-- A node in DELETING state (not yet DELETED), with lifecycle details. -/
def deletingNode : Node := { LifecycleState := "DELETING", LifecycleDetails := some "deleting" }

/-- A node in DELETED state. -/
def deletedNode : Node := { LifecycleState := "DELETED" }

/-- A node in CREATING state whose lifecycle details are absent. -/
def creatingNodeNoDetails : Node := { LifecycleState := "CREATING", LifecycleDetails := none }

/-- A node pool over three subnets with the given quantity per subnet, name
and nodes. -/
def poolOf (quantity : Option Int) (name : Option String) (nodes : List Node) : NodePool :=
  { Id := some "ocid1.nodepool.x", Name := name, QuantityPerSubnet := quantity,
    SubnetIds := ["subnet-1", "subnet-2", "subnet-3"], Nodes := nodes }

/-- A service whose `GetNodePool` query succeeds with the pool `np`. -/
def serve (np : NodePool) : GetNodePoolRequest → Except GoError GetNodePoolResponse :=
  fun _ => .ok { NodePool := np }

/-- A service that accepts every create request and issues a work request. -/
def submitted : CreateNodePoolRequest → Except GoError CreateNodePoolResponse :=
  fun _ => .ok { OpcWorkRequestId := some "ocid1.workrequest.1" }

/-- A wait that ends with a work request in the given final status and with
the given resources. -/
def completed (status : String) (resources : List WorkRequestResource) : WaitFunc :=
  fun _ => .ok { WorkRequest := { Id := some "ocid1.workrequest.1", Status := status,
                                  Resources := resources } }

/-- A list operation that finds the pool `a`. -/
def foundPoolA : ListNodePoolsRequest → ListReply :=
  fun _ => .ok { Items := [poolA] }

/-- A service that finds the pool and rejects its deletion. -/
def deleteRejected : DeleteClient :=
  { ListNodePools := foundPoolA
    DeleteNodePool := fun _ => .error (.remote "409 conflict")
    waitUntilWorkRequestComplete := completed "SUCCEEDED" [] }

/-- A service that finds the pool and accepts its deletion; the wait for the
work request fails. -/
def deleteWaitFails : DeleteClient :=
  { ListNodePools := foundPoolA
    DeleteNodePool := fun _ => .ok { OpcWorkRequestId := some "ocid1.workrequest.2" }
    waitUntilWorkRequestComplete := fun _ => .error (.remote "timeout") }

/-- A service that finds the pool and accepts its deletion; the work request
ends in status FAILED. -/
def deleteWorkFailed : DeleteClient :=
  { ListNodePools := foundPoolA
    DeleteNodePool := fun _ => .ok { OpcWorkRequestId := some "ocid1.workrequest.2" }
    waitUntilWorkRequestComplete := completed "FAILED" [] }

/-! ## Theorems -/

/-- The item loop appends the page to the items gathered so far. -/
theorem appendItems_eq (nodepools items : List NodePoolSummary) :
    appendItems nodepools items = nodepools ++ items := by
  unfold appendItems
  induction items generalizing nodepools with
  | nil => simp
  | cons item rest ih => simp [List.foldl_cons, ih]

/-- One turn of the loop whose fetch fails: the items gathered so far are returned
with the error. -/
theorem loop_succ_error {σ : Type} (listFunc : ListFunc σ) (fuel : Nat) (s s1 : σ)
    (request : ListNodePoolsRequest) (nodepools : List NodePoolSummary) (err : GoError)
    (h : listFunc s request = (.error err, s1)) :
    GetNodePools.loop listFunc (fuel + 1) s request nodepools =
      { result := some (nodepools, some err), calls := [(request, .error err)], state := s1 } := by
  simp [GetNodePools.loop, h]

/-- One turn of the loop whose fetch succeeds without a next-page cursor: the
loop breaks and the items are returned with a nil error. -/
theorem loop_succ_last {σ : Type} (listFunc : ListFunc σ) (fuel : Nat) (s s1 : σ)
    (request : ListNodePoolsRequest) (nodepools : List NodePoolSummary)
    (r : ListNodePoolsResponse) (h : listFunc s request = (.ok r, s1))
    (hlast : r.OpcNextPage = none) :
    GetNodePools.loop listFunc (fuel + 1) s request nodepools =
      { result := some (nodepools ++ r.Items, none), calls := [(request, .ok r)], state := s1 } := by
  simp [GetNodePools.loop, h, hlast, appendItems_eq]

/-- One turn of the loop whose fetch succeeds with a next-page cursor: the loop
goes on with the cursor stored in the request. -/
theorem loop_succ_more {σ : Type} (listFunc : ListFunc σ) (fuel : Nat) (s s1 : σ)
    (request : ListNodePoolsRequest) (nodepools : List NodePoolSummary)
    (r : ListNodePoolsResponse) (h : listFunc s request = (.ok r, s1))
    (hmore : r.OpcNextPage ≠ none) :
    GetNodePools.loop listFunc (fuel + 1) s request nodepools =
      { GetNodePools.loop listFunc fuel s1 { request with Page := r.OpcNextPage }
          (nodepools ++ r.Items) with
        calls := (request, .ok r) ::
          (GetNodePools.loop listFunc fuel s1 { request with Page := r.OpcNextPage }
            (nodepools ++ r.Items)).calls } := by
  simp [GetNodePools.loop, h, hmore, appendItems_eq]

/-- Over a scripted source the loop consumes a run of pages that all carry a
next-page cursor, one fetch each, and goes on behind them with their items
appended. -/
theorem loop_scripted_pages (pages : List ListNodePoolsResponse)
    (hmid : ∀ p ∈ pages, p.OpcNextPage ≠ none) (tail : List ListReply) :
    ∀ (fuel : Nat) (request : ListNodePoolsRequest) (nodepools : List NodePoolSummary),
      pages.length ≤ fuel →
      ∃ request1 : ListNodePoolsRequest,
        (GetNodePools.loop scripted fuel (pages.map .ok ++ tail) request nodepools).result =
          (GetNodePools.loop scripted (fuel - pages.length) tail request1
            (nodepools ++ (pages.map (·.Items)).flatten)).result ∧
        (GetNodePools.loop scripted fuel (pages.map .ok ++ tail) request nodepools).calls.map
            Prod.snd =
          pages.map .ok ++
            (GetNodePools.loop scripted (fuel - pages.length) tail request1
              (nodepools ++ (pages.map (·.Items)).flatten)).calls.map Prod.snd ∧
        (GetNodePools.loop scripted fuel (pages.map .ok ++ tail) request nodepools).state =
          (GetNodePools.loop scripted (fuel - pages.length) tail request1
            (nodepools ++ (pages.map (·.Items)).flatten)).state := by
  induction pages with
  | nil =>
    intro fuel request nodepools _
    exact ⟨request, by simp⟩
  | cons p rest ih =>
    intro fuel request nodepools hfuel
    have hp : p.OpcNextPage ≠ none := hmid p (List.mem_cons_self _ _)
    have hrest : ∀ q ∈ rest, q.OpcNextPage ≠ none :=
      fun q hq => hmid q (List.mem_cons_of_mem _ hq)
    obtain ⟨n, rfl⟩ : ∃ n, fuel = n + 1 := ⟨fuel - 1, by simp at hfuel; omega⟩
    have hn : rest.length ≤ n := by simp at hfuel; omega
    obtain ⟨request1, h1, h2, h3⟩ :=
      ih hrest n { request with Page := p.OpcNextPage } (nodepools ++ p.Items) hn
    refine ⟨request1, ?_⟩
    have hstep : scripted (List.map Except.ok (p :: rest) ++ tail) request =
        (.ok p, List.map Except.ok rest ++ tail) := rfl
    rw [loop_succ_more scripted n _ _ request nodepools p hstep hp]
    have hlen : n + 1 - (p :: rest).length = n - rest.length := by simp
    simp only [hlen, List.map_cons, List.flatten_cons, List.cons_append]
    rw [← List.append_assoc]
    exact ⟨h1, by rw [h2], h3⟩

/-- C1: over a source that serves the pages `pages ++ [last]` in order, every
page of `pages` with a next-page cursor and `last` with none, `GetNodePools`
returns, for every fuel of at least one fetch per page, the concatenation of
the pages' items in page order with a nil error, after exactly one fetch
per page: the replies it consumed are those pages and the replies behind
them are left unread. -/
theorem GetNodePools_drains_pages (ce : ContainerEngine) (clusterID : Option String)
    (pages : List ListNodePoolsResponse) (last : ListNodePoolsResponse)
    (unread : List ListReply) (fuel : Nat)
    (hmid : ∀ p ∈ pages, p.OpcNextPage ≠ none) (hlast : last.OpcNextPage = none)
    (hfuel : (pages ++ [last]).length ≤ fuel) :
    (GetNodePools ce scripted ((pages ++ [last]).map .ok ++ unread) clusterID fuel).result =
        some (((pages ++ [last]).map (·.Items)).flatten, none) ∧
      (GetNodePools ce scripted ((pages ++ [last]).map .ok ++ unread) clusterID fuel).calls.map
          Prod.snd = (pages ++ [last]).map .ok ∧
      (GetNodePools ce scripted ((pages ++ [last]).map .ok ++ unread) clusterID fuel).calls.length =
        (pages ++ [last]).length ∧
      (GetNodePools ce scripted ((pages ++ [last]).map .ok ++ unread) clusterID fuel).state =
        unread := by
  have hlen : pages.length ≤ fuel := by simp at hfuel; omega
  obtain ⟨request1, h1, h2, h3⟩ :=
    loop_scripted_pages pages hmid (.ok last :: unread) fuel
      (GetNodePools.request ce clusterID) [] hlen
  obtain ⟨n, hn⟩ : ∃ n, fuel - pages.length = n + 1 :=
    ⟨fuel - pages.length - 1, by simp at hfuel; omega⟩
  have hstep : scripted (.ok last :: unread) request1 = (.ok last, unread) := rfl
  rw [hn, loop_succ_last scripted n _ _ request1 _ last hstep hlast] at h1 h2 h3
  have hscript : (pages ++ [last]).map Except.ok ++ unread =
      pages.map Except.ok ++ (Except.ok last :: unread) := by simp
  have hcalls : (GetNodePools ce scripted ((pages ++ [last]).map .ok ++ unread) clusterID
      fuel).calls.map Prod.snd = (pages ++ [last]).map .ok := by
    unfold GetNodePools
    rw [hscript, h2]
    simp
  refine ⟨?_, hcalls, ?_, ?_⟩
  · unfold GetNodePools
    rw [hscript, h1]
    simp
  · have := congrArg List.length hcalls
    simpa using this
  · unfold GetNodePools
    rw [hscript, h3]

/-- C7: over a source whose first fetches succeed with the pages `pages`,
each with a next-page cursor, and whose next fetch fails with `e`,
`GetNodePools` returns `e` together with the concatenation of the items of
`pages`, after one fetch per page and the failed one: the replies behind it
are left unread. -/
theorem GetNodePools_truncated_on_error (ce : ContainerEngine) (clusterID : Option String)
    (pages : List ListNodePoolsResponse) (e : GoError) (unread : List ListReply) (fuel : Nat)
    (hmid : ∀ p ∈ pages, p.OpcNextPage ≠ none) (hfuel : pages.length + 1 ≤ fuel) :
    (GetNodePools ce scripted (pages.map .ok ++ .error e :: unread) clusterID fuel).result =
        some ((pages.map (·.Items)).flatten, some e) ∧
      (GetNodePools ce scripted (pages.map .ok ++ .error e :: unread) clusterID fuel).calls.map
          Prod.snd = pages.map .ok ++ [.error e] ∧
      (GetNodePools ce scripted (pages.map .ok ++ .error e :: unread) clusterID fuel).calls.length =
        pages.length + 1 ∧
      (GetNodePools ce scripted (pages.map .ok ++ .error e :: unread) clusterID fuel).state =
        unread := by
  have hlen : pages.length ≤ fuel := by omega
  obtain ⟨request1, h1, h2, h3⟩ :=
    loop_scripted_pages pages hmid (.error e :: unread) fuel
      (GetNodePools.request ce clusterID) [] hlen
  obtain ⟨n, hn⟩ : ∃ n, fuel - pages.length = n + 1 :=
    ⟨fuel - pages.length - 1, by omega⟩
  have hstep : scripted (.error e :: unread) request1 = (.error e, unread) := rfl
  rw [hn, loop_succ_error scripted n _ _ request1 _ e hstep] at h1 h2 h3
  have hcalls : (GetNodePools ce scripted (pages.map .ok ++ .error e :: unread) clusterID
      fuel).calls.map Prod.snd = pages.map .ok ++ [.error e] := by
    unfold GetNodePools
    rw [h2]
    simp
  refine ⟨?_, hcalls, ?_, ?_⟩
  · unfold GetNodePools
    rw [h1]
    simp
  · have := congrArg List.length hcalls
    simpa using this
  · unfold GetNodePools
    rw [h3]

/-- C1 (witness): the pages `[a, b]`, `[c]` and the empty page without cursor
yield `[a, b, c]` and a nil error after three fetches. -/
theorem GetNodePools_drains_pages_witness :
    (∀ p ∈ [pageAB, pageC], p.OpcNextPage ≠ none) ∧ pageEmpty.OpcNextPage = none ∧
      ([pageAB, pageC] ++ [pageEmpty]).length ≤ 3 ∧
      (GetNodePools sampleEngine scripted [.ok pageAB, .ok pageC, .ok pageEmpty]
          (some "ocid1.cluster.x") 3).result = some ([poolA, poolB, poolC], none) ∧
      (GetNodePools sampleEngine scripted [.ok pageAB, .ok pageC, .ok pageEmpty]
          (some "ocid1.cluster.x") 3).calls.length = 3 :=
  have h := GetNodePools_drains_pages sampleEngine (some "ocid1.cluster.x") [pageAB, pageC]
    pageEmpty [] 3 (by decide) rfl (by decide)
  ⟨by decide, rfl, by decide, h.1, h.2.2.1⟩

/-- C7 (witness): the pages `[a, b]` and `[c]` followed by a failed fetch yield
`[a, b, c]` with that error after three fetches; the reply behind the
failure stays unread. -/
theorem GetNodePools_truncated_on_error_witness :
    (∀ p ∈ [pageAB, pageC], p.OpcNextPage ≠ none) ∧ [pageAB, pageC].length + 1 ≤ 5 ∧
      (GetNodePools sampleEngine scripted
          [.ok pageAB, .ok pageC, .error (.remote "503"), .ok pageEmpty]
          (some "ocid1.cluster.x") 5).result =
        some ([poolA, poolB, poolC], some (.remote "503")) ∧
      (GetNodePools sampleEngine scripted
          [.ok pageAB, .ok pageC, .error (.remote "503"), .ok pageEmpty]
          (some "ocid1.cluster.x") 5).calls.length = 3 ∧
      (GetNodePools sampleEngine scripted
          [.ok pageAB, .ok pageC, .error (.remote "503"), .ok pageEmpty]
          (some "ocid1.cluster.x") 5).state = [.ok pageEmpty] :=
  have h := GetNodePools_truncated_on_error sampleEngine (some "ocid1.cluster.x")
    [pageAB, pageC] (.remote "503") [.ok pageEmpty] 5 (by decide) (by decide)
  ⟨by decide, by decide, h.1, h.2.2.1, h.2.2.2⟩

/-- The requests of the loop: the first is the request it starts from, and each
later one follows a successful reply with a cursor and is the starting
request with `Page` set to that cursor. -/
theorem loop_calls_requests {σ : Type} (listFunc : ListFunc σ) :
    ∀ (fuel : Nat) (s : σ) (request : ListNodePoolsRequest) (nodepools : List NodePoolSummary),
      (∀ a ∈ (GetNodePools.loop listFunc fuel s request nodepools).calls.head?,
          a.1 = request) ∧
        ∀ (i : Nat) (a b : ListNodePoolsRequest × ListReply),
          (GetNodePools.loop listFunc fuel s request nodepools).calls[i]? = some a →
          (GetNodePools.loop listFunc fuel s request nodepools).calls[i + 1]? = some b →
          ∃ r : ListNodePoolsResponse, a.2 = .ok r ∧ r.OpcNextPage ≠ none ∧
            b.1 = { request with Page := r.OpcNextPage } := by
  intro fuel
  induction fuel with
  | zero =>
    intro s request nodepools
    simp [GetNodePools.loop]
  | succ n ih =>
    intro s request nodepools
    rcases hrep : listFunc s request with ⟨reply, s1⟩
    cases reply with
    | error err =>
      rw [loop_succ_error listFunc n s s1 request nodepools err hrep]
      simp
    | ok r =>
      by_cases hmore : r.OpcNextPage = none
      · rw [loop_succ_last listFunc n s s1 request nodepools r hrep hmore]
        simp
      · rw [loop_succ_more listFunc n s s1 request nodepools r hrep hmore]
        obtain ⟨ihhead, ihnext⟩ :=
          ih s1 { request with Page := r.OpcNextPage } (nodepools ++ r.Items)
        refine ⟨by simp, ?_⟩
        intro i a b ha hb
        cases i with
        | zero =>
          simp only [List.getElem?_cons_zero, Option.some.injEq] at ha
          simp only [List.getElem?_cons_succ] at hb
          subst ha
          refine ⟨r, rfl, hmore, ?_⟩
          apply ihhead b
          rw [List.head?_eq_getElem?]
          simpa using hb
        | succ k =>
          simp only [List.getElem?_cons_succ] at ha hb
          obtain ⟨r1, h1, h2, h3⟩ := ihnext k a b ha hb
          exact ⟨r1, h1, h2, h3⟩

/-- C10: in every run of `GetNodePools` the first request carries the
compartment id, the given cluster id, limit 20 and no page cursor (every
other field at its zero value), and each later request follows a successful
reply that carries a next-page cursor and is the first request with `Page`
set to that cursor. -/
theorem GetNodePools_requests_differ_only_in_page {σ : Type} (ce : ContainerEngine)
    (listFunc : ListFunc σ) (s : σ) (clusterID : Option String) (fuel : Nat) :
    ((GetNodePools ce listFunc s clusterID (fuel + 1)).calls.head?.map Prod.fst =
        some { CompartmentId := some ce.CompartmentOCID, ClusterId := clusterID, Name := none,
               Limit := some 20, Page := none, SortOrder := "", SortBy := "",
               OpcRequestId := none }) ∧
      ∀ (i : Nat) (a b : ListNodePoolsRequest × ListReply),
        (GetNodePools ce listFunc s clusterID (fuel + 1)).calls[i]? = some a →
        (GetNodePools ce listFunc s clusterID (fuel + 1)).calls[i + 1]? = some b →
        ∃ r : ListNodePoolsResponse, a.2 = .ok r ∧ r.OpcNextPage ≠ none ∧
          b.1 = { CompartmentId := some ce.CompartmentOCID, ClusterId := clusterID,
                  Name := none, Limit := some 20, Page := r.OpcNextPage, SortOrder := "",
                  SortBy := "", OpcRequestId := none } := by
  obtain ⟨hhead, hnext⟩ :=
    loop_calls_requests listFunc (fuel + 1) s (GetNodePools.request ce clusterID) []
  refine ⟨?_, hnext⟩
  unfold GetNodePools
  cases hc : (GetNodePools.loop listFunc (fuel + 1) s (GetNodePools.request ce clusterID)
      []).calls with
  | nil =>
    exfalso
    revert hc
    rcases hrep : listFunc s (GetNodePools.request ce clusterID) with ⟨reply, s1⟩
    cases reply with
    | error err => rw [loop_succ_error listFunc fuel s s1 _ [] err hrep]; simp
    | ok r =>
      by_cases hmore : r.OpcNextPage = none
      · rw [loop_succ_last listFunc fuel s s1 _ [] r hrep hmore]; simp
      · rw [loop_succ_more listFunc fuel s s1 _ [] r hrep hmore]; simp
  | cons a rest =>
    have := hhead a (by rw [hc]; simp)
    simp [this, GetNodePools.request]

/-- C10 (witness): over the pages `[a, b]`, `[c]` and the empty page, the three
requests are the first request, then the first request with `Page` set to
the cursor of `[a, b]`, then the first request with `Page` set to the cursor
of `[c]`. -/
theorem GetNodePools_requests_differ_only_in_page_witness :
    (GetNodePools sampleEngine scripted [.ok pageAB, .ok pageC, .ok pageEmpty]
        (some "ocid1.cluster.x") 3).calls.map Prod.fst =
      [{ CompartmentId := some "ocid1.compartment.oc1..aaaa",
         ClusterId := some "ocid1.cluster.x", Limit := some 20 },
       { CompartmentId := some "ocid1.compartment.oc1..aaaa",
         ClusterId := some "ocid1.cluster.x", Limit := some 20, Page := some "page-2" },
       { CompartmentId := some "ocid1.compartment.oc1..aaaa",
         ClusterId := some "ocid1.cluster.x", Limit := some 20, Page := some "page-3" }] ∧
      ∃ r : ListNodePoolsResponse,
        (Except.ok pageC : ListReply) = .ok r ∧ r.OpcNextPage ≠ none ∧
          ({ CompartmentId := some "ocid1.compartment.oc1..aaaa",
             ClusterId := some "ocid1.cluster.x", Limit := some 20,
             Page := some "page-3" } : ListNodePoolsRequest) =
            { CompartmentId := some sampleEngine.CompartmentOCID,
              ClusterId := some "ocid1.cluster.x", Name := none, Limit := some 20,
              Page := r.OpcNextPage, SortOrder := "", SortBy := "", OpcRequestId := none } :=
  ⟨by decide,
   (GetNodePools_requests_differ_only_in_page sampleEngine scripted
      [.ok pageAB, .ok pageC, .ok pageEmpty] (some "ocid1.cluster.x") 2).2 1
      ({ CompartmentId := some "ocid1.compartment.oc1..aaaa",
         ClusterId := some "ocid1.cluster.x", Limit := some 20, Page := some "page-2" },
        .ok pageC)
      ({ CompartmentId := some "ocid1.compartment.oc1..aaaa",
         ClusterId := some "ocid1.cluster.x", Limit := some 20, Page := some "page-3" },
        .ok pageEmpty)
      rfl rfl⟩

/-- Over a source that always answers with the cursor `"X"` the loop uses up
any fuel without returning. -/
theorem loop_never_returns {σ : Type} (listFunc : ListFunc σ)
    (hX : ∀ (s : σ) (request : ListNodePoolsRequest),
      ∃ r : ListNodePoolsResponse, (listFunc s request).1 = .ok r ∧ r.OpcNextPage = some "X") :
    ∀ (fuel : Nat) (s : σ) (request : ListNodePoolsRequest) (nodepools : List NodePoolSummary),
      (GetNodePools.loop listFunc fuel s request nodepools).result = none ∧
        (GetNodePools.loop listFunc fuel s request nodepools).calls.length = fuel ∧
        ∀ a ∈ (GetNodePools.loop listFunc fuel s request nodepools).calls,
          ∃ r : ListNodePoolsResponse, a.2 = .ok r := by
  intro fuel
  induction fuel with
  | zero => intro s request nodepools; simp [GetNodePools.loop]
  | succ n ih =>
    intro s request nodepools
    obtain ⟨r, hr, hpage⟩ := hX s request
    have hrep : listFunc s request = (.ok r, (listFunc s request).2) := by
      rw [← hr]
    have hmore : r.OpcNextPage ≠ none := by rw [hpage]; simp
    rw [loop_succ_more listFunc n s _ request nodepools r hrep hmore]
    obtain ⟨h1, h2, h3⟩ := ih (listFunc s request).2 { request with Page := r.OpcNextPage }
      (nodepools ++ r.Items)
    refine ⟨h1, by simp [h2], ?_⟩
    intro a ha
    simp only [List.mem_cons] at ha
    rcases ha with rfl | ha
    · exact ⟨r, rfl⟩
    · exact h3 a ha

/-- C4 (amended): `GetNodePools` has no guard against a repeating cursor.
Over a source that answers every fetch successfully with the next-page
cursor `"X"`, after any number `fuel` of fetches it has made exactly `fuel`
fetches, every one of them answered without error, and it has returned
nothing: neither a result nor an error. -/
theorem GetNodePools_repeating_cursor_never_returns {σ : Type} (ce : ContainerEngine)
    (listFunc : ListFunc σ) (s : σ) (clusterID : Option String) (fuel : Nat)
    (hX : ∀ (s : σ) (request : ListNodePoolsRequest),
      ∃ r : ListNodePoolsResponse, (listFunc s request).1 = .ok r ∧ r.OpcNextPage = some "X") :
    (GetNodePools ce listFunc s clusterID fuel).result = none ∧
      (GetNodePools ce listFunc s clusterID fuel).calls.length = fuel ∧
      ∀ a ∈ (GetNodePools ce listFunc s clusterID fuel).calls,
        ∃ r : ListNodePoolsResponse, a.2 = .ok r :=
  loop_never_returns listFunc hX fuel s (GetNodePools.request ce clusterID) []

/-- The source `cursorXForever` returns the cursor `"X"` on every fetch. -/
theorem cursorXForever_repeats (s : Unit) (request : ListNodePoolsRequest) :
    ∃ r : ListNodePoolsResponse,
      (cursorXForever s request).1 = .ok r ∧ r.OpcNextPage = some "X" :=
  ⟨{ Items := [], OpcNextPage := some "X" }, rfl, rfl⟩

/-- C4 (witness): over `cursorXForever`, a thousand fetches in, `GetNodePools`
has returned nothing. -/
theorem GetNodePools_repeating_cursor_never_returns_witness :
    (∀ (s : Unit) (request : ListNodePoolsRequest),
      ∃ r : ListNodePoolsResponse,
        (cursorXForever s request).1 = .ok r ∧ r.OpcNextPage = some "X") ∧
      (GetNodePools sampleEngine cursorXForever () (some "ocid1.cluster.x") 1000).result = none ∧
      (GetNodePools sampleEngine cursorXForever () (some "ocid1.cluster.x") 1000).calls.length =
        1000 :=
  have h := GetNodePools_repeating_cursor_never_returns sampleEngine cursorXForever ()
    (some "ocid1.cluster.x") 1000 cursorXForever_repeats
  ⟨cursorXForever_repeats, h.1, h.2.1⟩

/-- C4 (counterexample): over the source that returns the cursor `"X"` on
every fetch, no number of fetches makes `GetNodePools` return, with a
pagination-cycle error or with anything else. -/
theorem GetNodePools_repeating_cursor_counterexample :
    ¬ ∃ (fuel : Nat) (outcome : List NodePoolSummary × Option GoError),
      (GetNodePools sampleEngine cursorXForever () (some "ocid1.cluster.x") fuel).result =
        some outcome := by
  rintro ⟨fuel, outcome, h⟩
  have hnone := (loop_never_returns cursorXForever cursorXForever_repeats fuel ()
    (GetNodePools.request sampleEngine (some "ocid1.cluster.x")) []).1
  unfold GetNodePools at h
  rw [hnone] at h
  cases h

/-- A value in the signed 64-bit range is not changed by `wrapInt`. -/
theorem wrapInt_of_range (x : Int) (hlo : -2 ^ 63 ≤ x) (hhi : x < 2 ^ 63) : wrapInt x = x := by
  unfold wrapInt
  rw [Int.emod_eq_of_lt (by omega) (by omega)]
  omega

/-- When every node that is neither DELETED nor ACTIVE carries lifecycle
details, the node loop adds the readiness count of the reported states. -/
theorem scan_eq_readyCount (nodes : List Node)
    (hdetails : ∀ n ∈ nodes, n.LifecycleState ≠ NodeLifecycleStateDeleted →
      n.LifecycleState ≠ NodeLifecycleStateActive → n.LifecycleDetails ≠ none) :
    ∀ activeNodes : Int,
      IsNodePoolActive.scan nodes activeNodes =
        .ret (activeNodes + readyCount (nodes.map (·.LifecycleState))) := by
  induction nodes with
  | nil => intro a; simp [IsNodePoolActive.scan, readyCount]
  | cons n rest ih =>
    intro a
    have hrest := ih (fun m hm => hdetails m (List.mem_cons_of_mem _ hm))
    have hn := hdetails n (List.mem_cons_self _ _)
    unfold IsNodePoolActive.scan
    simp only [List.map_cons, readyCount]
    simp only [NodeLifecycleStateDeleted, NodeLifecycleStateActive] at hn ⊢
    by_cases hd : n.LifecycleState = "DELETED"
    · simp [hd, hrest]
    · by_cases ha : n.LifecycleState = "ACTIVE"
      · simp [ha, hrest]
        omega
      · have := hn hd ha
        cases hdet : n.LifecycleDetails with
        | none => exact absurd hdet this
        | some d => simp [hd, ha]

/-- On a pool with a quantity per subnet, a name, and lifecycle details on every
node that is neither DELETED nor ACTIVE, the body of `IsNodePoolActive`
returns the verdict of the readiness rule for the needed count
`len(SubnetIds) * QuantityPerSubnet` (in 64-bit arithmetic). -/
theorem check_eq_isReady (np : NodePool) (quantity : Int) (name : String)
    (hq : np.QuantityPerSubnet = some quantity) (hname : np.Name = some name)
    (hdetails : ∀ n ∈ np.Nodes, n.LifecycleState ≠ NodeLifecycleStateDeleted →
      n.LifecycleState ≠ NodeLifecycleStateActive → n.LifecycleDetails ≠ none) :
    IsNodePoolActive.check np =
      .ret (isReady (wrapInt ((np.SubnetIds.length : Int) * quantity))
        (np.Nodes.map (·.LifecycleState))) := by
  unfold IsNodePoolActive.check
  simp only [hq, hname, scan_eq_readyCount np.Nodes hdetails 0, isReady]
  by_cases h : (0 : Int) + (readyCount (np.Nodes.map (·.LifecycleState)) : Int) =
      wrapInt ((np.SubnetIds.length : Int) * quantity)
  · simp only [h, if_true]
    simp at h
    simp [h]
  · simp only [h, if_false]
    simp at h
    simp [h]

/-- On a successfully fetched pool with a quantity per subnet, a name, and
lifecycle details on every node that is neither DELETED nor ACTIVE,
`IsNodePoolActive` returns true exactly when the readiness count equals the
needed count. -/
theorem IsNodePoolActive_iff_count
    (getNodePool : GetNodePoolRequest → Except GoError GetNodePoolResponse)
    (id : Option String) (np : NodePool) (quantity : Int) (name : String)
    (hget : getNodePool { NodePoolId := id } = .ok { NodePool := np })
    (hq : np.QuantityPerSubnet = some quantity) (hname : np.Name = some name)
    (hdetails : ∀ n ∈ np.Nodes, n.LifecycleState ≠ NodeLifecycleStateDeleted →
      n.LifecycleState ≠ NodeLifecycleStateActive → n.LifecycleDetails ≠ none) :
    (IsNodePoolActive getNodePool id = .ret true ∨
        IsNodePoolActive getNodePool id = .ret false) ∧
      (IsNodePoolActive getNodePool id = .ret true ↔
        (readyCount (np.Nodes.map (·.LifecycleState)) : Int) =
          wrapInt ((np.SubnetIds.length : Int) * quantity)) := by
  have h : IsNodePoolActive getNodePool id =
      .ret (isReady (wrapInt ((np.SubnetIds.length : Int) * quantity))
        (np.Nodes.map (·.LifecycleState))) := by
    rw [← check_eq_isReady np quantity name hq hname hdetails]
    simp [IsNodePoolActive, GetNodePool, hget]
  rw [h]
  constructor
  · cases isReady (wrapInt ((np.SubnetIds.length : Int) * quantity))
      (np.Nodes.map (·.LifecycleState)) <;> simp
  · simp [isReady]

/-- C2 (failing input): a pool of three subnets with one node each, scaled
down from four nodes, whose nodes are reported as ACTIVE, ACTIVE, ACTIVE,
DELETING. `IsNodePoolActive` returns true, and the pool has a node that is
neither DELETED nor ACTIVE. -/
theorem IsNodePoolActive_true_with_deleting_node :
    IsNodePoolActive
        (serve (poolOf (some 1) (some "pool") [activeNode, activeNode, activeNode, deletingNode]))
        (some "ocid1.nodepool.x") = .ret true ∧
      ∃ n ∈ (poolOf (some 1) (some "pool")
          [activeNode, activeNode, activeNode, deletingNode]).Nodes,
        n.LifecycleState ≠ NodeLifecycleStateDeleted ∧
          n.LifecycleState ≠ NodeLifecycleStateActive :=
  ⟨by decide, deletingNode, by decide, by decide, by decide⟩

/-- C3 (failing inputs): a pool of three subnets with one node each, whose
nodes are reported as ACTIVE, ACTIVE, DELETED, ACTIVE and which has no name.
The count of ready states is 3 and equals the needed count, so the pool is
ready by the rule; `IsNodePoolActive` does not return true, it dereferences
the nil `Name` in its info line (with a name it returns true). Likewise for
the states ACTIVE, UPDATING, ACTIVE the rule gives `isReady 3 = false`; when
the UPDATING node has no lifecycle details `IsNodePoolActive` does not
return false, it dereferences them in its debug line (with details it
returns false). -/
theorem IsNodePoolActive_ready_count_but_nil_dereference :
    ((readyCount ((poolOf (some 1) none
          [activeNode, activeNode, deletedNode, activeNode]).Nodes.map
            (·.LifecycleState)) : Int) =
        wrapInt (((poolOf (some 1) none
          [activeNode, activeNode, deletedNode, activeNode]).SubnetIds.length : Int) * 1)) ∧
      IsNodePoolActive
        (serve (poolOf (some 1) none [activeNode, activeNode, deletedNode, activeNode]))
        (some "ocid1.nodepool.x") = .nilDeref ∧
      IsNodePoolActive
        (serve (poolOf (some 1) (some "pool") [activeNode, activeNode, deletedNode, activeNode]))
        (some "ocid1.nodepool.x") = .ret true ∧
      isReady 3 ["ACTIVE", "UPDATING", "ACTIVE"] = false ∧
      IsNodePoolActive
        (serve (poolOf (some 1) (some "pool") [activeNode, updatingNodeNoDetails, activeNode]))
        (some "ocid1.nodepool.x") = .nilDeref ∧
      IsNodePoolActive
        (serve (poolOf (some 1) (some "pool") [activeNode, updatingNode, activeNode]))
        (some "ocid1.nodepool.x") = .ret false :=
  ⟨by decide, by decide, by decide, by decide, by decide, by decide⟩

/-- C8 (failing inputs): `IsNodePoolActive` dereferences a nil pointer on a
pool without quantity-per-subnet, on a pool whose nodes are all ACTIVE and
as many as needed but which has no name, and on a pool with a CREATING node
that has no lifecycle details. -/
theorem IsNodePoolActive_nil_dereference :
    IsNodePoolActive
        (serve (poolOf none (some "pool") [activeNode, activeNode, activeNode]))
        (some "ocid1.nodepool.x") = .nilDeref ∧
      IsNodePoolActive
        (serve (poolOf (some 1) none [activeNode, activeNode, activeNode]))
        (some "ocid1.nodepool.x") = .nilDeref ∧
      IsNodePoolActive
        (serve (poolOf (some 1) (some "pool") [creatingNodeNoDetails]))
        (some "ocid1.nodepool.x") = .nilDeref :=
  ⟨by decide, by decide, by decide⟩

/-- C9: when the `GetNodePool` query of the service fails, `IsNodePoolActive`
returns false; the error is not passed on. -/
theorem IsNodePoolActive_false_on_query_error
    (getNodePool : GetNodePoolRequest → Except GoError GetNodePoolResponse)
    (id : Option String) (err : GoError)
    (herr : getNodePool { NodePoolId := id } = .error err) :
    (GetNodePool getNodePool id).2 = some err ∧
      IsNodePoolActive getNodePool id = .ret false := by
  simp [IsNodePoolActive, GetNodePool, herr]

/-- C9 (witness): a service whose query fails with `503`. -/
theorem IsNodePoolActive_false_on_query_error_witness :
    (fun _ => .error (.remote "503") : GetNodePoolRequest → Except GoError GetNodePoolResponse)
        { NodePoolId := some "ocid1.nodepool.x" } = .error (.remote "503") ∧
      IsNodePoolActive (fun _ => .error (.remote "503")) (some "ocid1.nodepool.x") =
        .ret false :=
  ⟨rfl, (IsNodePoolActive_false_on_query_error (fun _ => .error (.remote "503"))
    (some "ocid1.nodepool.x") (.remote "503") rfl).2⟩

/-- Whenever the named pool is found with a non-nil id and a name,
`DeleteNodePoolByName` returns a nil error, whatever `DeleteNodePool`
returns for that id. -/
theorem DeleteNodePoolByName_nil_when_found (ce : ContainerEngine) (client : DeleteClient)
    (clusterID : Option String) (name : String) (nodePool : NodePoolSummary)
    (id poolName : String)
    (hfound : GetNodePoolByName ce client clusterID name = (nodePool, none))
    (hid : nodePool.Id = some id) (hname : nodePool.Name = some poolName) :
    DeleteNodePoolByName ce client clusterID name = .ret none := by
  simp [DeleteNodePoolByName, hfound, hid, hname]

/-- C5 (failing inputs): the named pool is found with a non-nil id, and
`DeleteNodePool` fails for it: by a rejected submission, by a failed wait,
by a work request that ends FAILED. In each case `DeleteNodePoolByName`
returns a nil error. -/
theorem DeleteNodePoolByName_drops_delete_error :
    (GetNodePoolByName sampleEngine deleteRejected (some "ocid1.cluster.x") "a" = (poolA, none) ∧
        poolA.Id ≠ none) ∧
      (DeleteNodePool deleteRejected poolA.Id = some (.remote "409 conflict") ∧
        DeleteNodePoolByName sampleEngine deleteRejected (some "ocid1.cluster.x") "a" =
          .ret none) ∧
      (DeleteNodePool deleteWaitFails poolA.Id = some (.remote "timeout") ∧
        DeleteNodePoolByName sampleEngine deleteWaitFails (some "ocid1.cluster.x") "a" =
          .ret none) ∧
      (DeleteNodePool deleteWorkFailed poolA.Id = some (.errorf "WorkReqResp status: FAILED") ∧
        DeleteNodePoolByName sampleEngine deleteWorkFailed (some "ocid1.cluster.x") "a" =
          .ret none) :=
  ⟨⟨rfl, by decide⟩, ⟨rfl, rfl⟩, ⟨rfl, rfl⟩, ⟨by decide, by decide⟩⟩

/-- C6 (amended): the outcome of `CreateNodePool`. A failed submission, and a
failed wait for the work request, give that error and the empty id. A
completed work request whose status is not SUCCEEDED gives the empty id and
the error `WorkReqResp status: <status>`. A SUCCEEDED work request for which
`getResourceID` correlates an id from its resources for the action type
CREATED and the entity type `NODEPOOL` gives that id with a nil error. -/
theorem CreateNodePool_outcome
    (createNodePool : CreateNodePoolRequest → Except GoError CreateNodePoolResponse)
    (waitUntilWorkRequestComplete : WaitFunc) (request : CreateNodePoolRequest) :
    (∀ err, createNodePool request = .error err →
        CreateNodePool createNodePool waitUntilWorkRequestComplete request =
          .ret ("", some err)) ∧
      (∀ response err, createNodePool request = .ok response →
        waitUntilWorkRequestComplete response.OpcWorkRequestId = .error err →
        CreateNodePool createNodePool waitUntilWorkRequestComplete request =
          .ret ("", some err)) ∧
      (∀ response workReqResp, createNodePool request = .ok response →
        waitUntilWorkRequestComplete response.OpcWorkRequestId = .ok workReqResp →
        workReqResp.WorkRequest.Status ≠ WorkRequestStatusSucceeded →
        CreateNodePool createNodePool waitUntilWorkRequestComplete request =
          .ret ("", some (.errorf ("WorkReqResp status: " ++ workReqResp.WorkRequest.Status)))) ∧
      (∀ response workReqResp nodepoolOCID, createNodePool request = .ok response →
        waitUntilWorkRequestComplete response.OpcWorkRequestId = .ok workReqResp →
        workReqResp.WorkRequest.Status = WorkRequestStatusSucceeded →
        getResourceID workReqResp.WorkRequest.Resources WorkRequestResourceActionTypeCreated
          "NODEPOOL" = some nodepoolOCID →
        CreateNodePool createNodePool waitUntilWorkRequestComplete request =
          .ret (nodepoolOCID, none)) := by
  refine ⟨?_, ?_, ?_, ?_⟩
  · intro err h
    simp [CreateNodePool, h]
  · intro response err h hw
    simp [CreateNodePool, h, hw]
  · intro response workReqResp h hw hs
    simp [CreateNodePool, h, hw, hs, statusError]
  · intro response workReqResp nodepoolOCID h hw hs hid
    simp [CreateNodePool, h, hw, hs, GetWorkRequestResponse.Resources, hid]

/-- C6 (counterexample): the submission is accepted and the work request
completes with status SUCCEEDED and no resources. `getResourceID` correlates
no id for CREATED and `NODEPOOL`, and `CreateNodePool` does not return an id
with a nil error: it dereferences the absent result. -/
theorem CreateNodePool_succeeded_without_resource_counterexample :
    submitted { Name := some "pool" } = .ok { OpcWorkRequestId := some "ocid1.workrequest.1" } ∧
      completed "SUCCEEDED" [] (some "ocid1.workrequest.1") =
        .ok { WorkRequest := { Id := some "ocid1.workrequest.1",
                               Status := WorkRequestStatusSucceeded, Resources := [] } } ∧
      getResourceID [] WorkRequestResourceActionTypeCreated "NODEPOOL" = none ∧
      CreateNodePool submitted (completed "SUCCEEDED" []) { Name := some "pool" } = .nilDeref ∧
      ¬ ∃ nodepoolOCID : String,
        CreateNodePool submitted (completed "SUCCEEDED" []) { Name := some "pool" } =
          .ret (nodepoolOCID, none) := by
  refine ⟨rfl, rfl, rfl, by decide, ?_⟩
  rintro ⟨nodepoolOCID, h⟩
  have hderef : CreateNodePool submitted (completed "SUCCEEDED" []) { Name := some "pool" } =
      .nilDeref := by decide
  rw [hderef] at h
  cases h

/-- C6 (witness): a work request that succeeds with the one resource
`{CREATED, NODEPOOL, pool-123}` yields `pool-123` and a nil error; one that
ends FAILED yields the empty id and the status error. -/
theorem CreateNodePool_outcome_witness :
    getResourceID [{ ActionType := "CREATED", EntityType := "NODEPOOL", Identifier := "pool-123" }]
        WorkRequestResourceActionTypeCreated "NODEPOOL" = some "pool-123" ∧
      CreateNodePool submitted
        (completed "SUCCEEDED"
          [{ ActionType := "CREATED", EntityType := "NODEPOOL", Identifier := "pool-123" }])
        { Name := some "pool" } = .ret ("pool-123", none) ∧
      CreateNodePool submitted (completed "FAILED" []) { Name := some "pool" } =
        .ret ("", some (.errorf "WorkReqResp status: FAILED")) :=
  ⟨by decide,
   (CreateNodePool_outcome submitted
      (completed "SUCCEEDED"
        [{ ActionType := "CREATED", EntityType := "NODEPOOL", Identifier := "pool-123" }])
      { Name := some "pool" }).2.2.2 _ _ "pool-123" rfl rfl rfl (by decide),
   (CreateNodePool_outcome submitted (completed "FAILED" []) { Name := some "pool" }).2.2.1
      _ _ rfl rfl (by decide)⟩


end oci
